import Mathlib

/-!
Verification of the sendgrid-recipients-erasure scripts.

This file gives a shallow embedding, in Lean 4, of the pure request/response
logic of the repository:

* `erase_emails` and `read_emails_from_file` from
  `Sendgrid-Erase/erase_emails_batch.py` (class `SendGridBatchEraser`);
* the callback store of `webhook_server_enhanced.py`
  (`save_callback`, the `/callback` route, `/webhooks`, `/webhooks/clear`).

HTTP transport, the file system, the `csv` module and the `json` module are
external collaborators of those scripts; their outputs (a mocked response, a
parsed file content, a parse result) are inputs of the embedded functions,
exactly as a mocked-transport unit test would supply them.
-/

/-- Parsed JSON value, as produced by the Python functions `json.loads`,
`response.json()` and Flask `request.get_json()`.  Numbers are modelled as
integers (no claim exercises fractional numbers). -/
inductive Json where
  | null : Json
  | bool (b : Bool) : Json
  | num (n : Int) : Json
  | str (s : String) : Json
  | arr (elems : List Json) : Json
  | obj (fields : List (String × Json)) : Json

/-- Lookup of a key in a parsed JSON object (a Python `dict`): Python dicts
have unique keys, so first-match lookup in the field list is faithful. -/
def jlookup (fields : List (String × Json)) (k : String) : Option Json :=
  match fields with
  | [] => none
  | (k2, v) :: rest => if k2 = k then some v else jlookup rest k

mutual

/-- Python `repr` of a parsed-JSON value (used by `str` on non-string
values): `None`, `True`, `False`, digits, quoted strings, bracketed lists,
braced dicts. -/
def pyRepr : Json → String
  | Json.null => "None"
  | Json.bool true => "True"
  | Json.bool false => "False"
  | Json.num n => toString n
  | Json.str s => "\x27" ++ s ++ "\x27"
  | Json.arr xs => "[" ++ String.intercalate ", " (pyReprList xs) ++ "]"
  | Json.obj fs => "\x7b" ++ String.intercalate ", " (pyReprFields fs) ++ "\x7d"

/-- Python `repr` of each element of a parsed-JSON array. -/
def pyReprList : List Json → List String
  | [] => []
  | j :: js => pyRepr j :: pyReprList js

/-- Python `repr` of each `key: value` entry of a parsed-JSON dict. -/
def pyReprFields : List (String × Json) → List String
  | [] => []
  | (k, v) :: fs => ("\x27" ++ k ++ "\x27: " ++ pyRepr v) :: pyReprFields fs

end

/-- Python `str` of a parsed-JSON value: a string prints verbatim, anything
else prints as its `repr`. -/
def pyStr : Json → String
  | Json.str s => s
  | j => pyRepr j

/-- Whitespace characters stripped by the Python method `str.strip()` (the ASCII
ones: space, tab, newline, carriage return, vertical tab, form feed). -/
def pyIsSpace (c : Char) : Bool :=
  c == ' ' || c == '\t' || c == '\n' || c == '\r' || c == '\x0b' || c == '\x0c'

/-- Python `str.strip()`: drop whitespace from both ends, written over the
character list of the string. -/
def pyStrip (s : String) : String :=
  ⟨((s.data.dropWhile pyIsSpace).reverse.dropWhile pyIsSpace).reverse⟩

/-- Split a character list at newline characters (the Python iteration over
the lines of a text file, with the terminators subsequently stripped). -/
def splitLinesAux : List Char → List Char → List String
  | acc, [] => [⟨acc.reverse⟩]
  | acc, c :: cs =>
      if c == '\n' then ⟨acc.reverse⟩ :: splitLinesAux [] cs
      else splitLinesAux (c :: acc) cs

/-- The lines of the content of a text file. -/
def pySplitLines (s : String) : List String :=
  splitLinesAux [] s.data

/-- Test whether the second character list is a prefix of the first. -/
def charsStartWith : List Char → List Char → Bool
  | _, [] => true
  | [], _ :: _ => false
  | c :: cs, p :: ps => c == p && charsStartWith cs ps

/-- The Python substring test `pat in s`, written over character lists. -/
def charsContainSub : List Char → List Char → Bool
  | [], pat => pat.isEmpty
  | c :: cs, pat => charsStartWith (c :: cs) pat || charsContainSub cs pat

/-- A mocked HTTP response, as seen by `erase_emails` through the `requests`
library: status code, headers, body text, and the result of
`response.json()` (`none` when the body text is not valid JSON, in which
case `response.json()` raises). -/
structure HttpResponse where
  status_code : Nat
  headers : List (String × String)
  text : String
  jsonBody : Option Json

/-- Lookup of a header value in `response.headers` (`"K" in response.headers`
followed by `response.headers["K"]`). -/
def headerLookup (headers : List (String × String)) (k : String) : Option String :=
  match headers with
  | [] => none
  | (k2, v) :: rest => if k2 = k then some v else headerLookup rest k

/-- One optional entry of the `request_ids` dict: present exactly when the
looked-up value is. -/
def optEntry (k : String) (v : Option Json) : List (String × Json) :=
  match v with
  | some j => [(k, j)]
  | none => []

/-- Identifiers harvested from the response headers
(`erase_emails`, lines 95-101 of `erase_emails_batch.py`): `X-Request-Id`,
`X-Message-Id`, `X-Trace-Id`, in that insertion order. -/
def header_request_ids (headers : List (String × String)) : List (String × Json) :=
  optEntry "x_request_id" ((headerLookup headers "X-Request-Id").map Json.str) ++
  optEntry "x_message_id" ((headerLookup headers "X-Message-Id").map Json.str) ++
  optEntry "x_trace_id" ((headerLookup headers "X-Trace-Id").map Json.str)

/-- Identifiers harvested from the response body
(`erase_emails`, lines 103-115): when the body text is non-empty and parses
to a dict, the keys `job_id`, `id` (stored as `erasure_job_id`) and
`request_id`; any parse failure or non-dict body contributes nothing. -/
def body_request_ids (r : HttpResponse) : List (String × Json) :=
  if r.text = "" then []
  else
    match r.jsonBody with
    | some (Json.obj fields) =>
        optEntry "job_id" (jlookup fields "job_id") ++
        optEntry "erasure_job_id" (jlookup fields "id") ++
        optEntry "request_id" (jlookup fields "request_id")
    | _ => []

/-- The full `request_ids` dict built by `erase_emails` before it branches on
the status code: header identifiers then body identifiers, in insertion
order. -/
def extract_request_ids (r : HttpResponse) : List (String × Json) :=
  header_request_ids r.headers ++ body_request_ids r

/-- Error message extraction of the failure branch of `erase_emails`
(lines 128-137): start from `"Unknown error"`; if the body text is non-empty
try to parse it; a dict yields its `errors` value, else its `message` value,
else `"Unknown error"`; a non-dict parse yields its Python `str`; a parse
failure yields the raw body text. -/
def failure_error_message (r : HttpResponse) : Json :=
  if r.text = "" then Json.str "Unknown error"
  else
    match r.jsonBody with
    | some (Json.obj fields) =>
        (match jlookup fields "errors" with
         | some v => v
         | none =>
           match jlookup fields "message" with
           | some v => v
           | none => Json.str "Unknown error")
    | some j => Json.str (pyStr j)
    | none => Json.str r.text

/-- Result dict of `erase_emails`.  The Python function returns dicts with
different key sets in the three outcomes; an `Option` field models presence
of the corresponding key. -/
structure ErasureResult where
  success : Bool
  status_code : Option Nat
  message : Option String
  error : Option Json
  emails_processed : Option (List String)
  emails_attempted : Option (List String)
  request_ids : Option (List (String × Json))
  response_headers : Option (List (String × String))

/-- Embedding of `SendGridBatchEraser.erase_emails` (lines 75-153 of
`erase_emails_batch.py`).  The transport argument is the outcome of
`requests.post`: `Except.error e` is a raised
`requests.exceptions.RequestException` whose description is `e`,
`Except.ok r` a delivered response.  The function is total: the `except`
clause turns the transport exception into a failure dict, so no exception
propagates to the caller. -/
def erase_emails (emails : List String) (transport : Except String HttpResponse) :
    ErasureResult :=
  match transport with
  | Except.error e =>
      { success := false
        status_code := none
        message := none
        error := some (Json.str ("Request failed: " ++ e))
        emails_processed := none
        emails_attempted := some emails
        request_ids := none
        response_headers := none }
  | Except.ok r =>
      let request_ids := extract_request_ids r
      if r.status_code ∈ [200, 201, 202, 204] then
        { success := true
          status_code := some r.status_code
          message := some ("Successfully initiated erasure for " ++
            toString emails.length ++ " emails")
          error := none
          emails_processed := some emails
          emails_attempted := none
          request_ids := some request_ids
          response_headers := some r.headers }
      else
        { success := false
          status_code := some r.status_code
          message := none
          error := some (failure_error_message r)
          emails_processed := none
          emails_attempted := some emails
          request_ids := some request_ids
          response_headers := some r.headers }

/-- Acceptance test of `read_emails_from_file`: a candidate is kept iff,
after `strip()`, it is non-empty (`if email`) and contains `@`
(`"@" in email`). -/
def emailOk (e : String) : Bool :=
  !e.data.isEmpty && e.data.contains '@'

/-- The plain-text loop of `read_emails_from_file` (lines 43-47): for each
line, strip it and append it when accepted. -/
def read_emails_lines : List String → List String
  | [] => []
  | line :: rest =>
      let email := pyStrip line
      if emailOk email then email :: read_emails_lines rest
      else read_emails_lines rest

/-- The CSV loop of `read_emails_from_file` (lines 36-40): for each non-empty
record, strip its first column and append it when accepted. -/
def read_emails_csv_rows : List (List String) → List String
  | [] => []
  | row :: rest =>
      if row.isEmpty then read_emails_csv_rows rest
      else
        let email := pyStrip (row.headD "")
        if emailOk email then email :: read_emails_csv_rows rest
        else read_emails_csv_rows rest

/-- Content of the input file as the reader sees it after the external
pieces have run: a non-`.csv` path gives the raw text, a `.csv` path gives
the records produced by the `csv` module together with the
`csv.Sniffer().has_header` verdict. -/
inductive FileData where
  | text (content : String) : FileData
  | csv (records : List (List String)) (hasHeader : Bool) : FileData

/-- Embedding of `SendGridBatchEraser.read_emails_from_file` (lines 20-54 of
`erase_emails_batch.py`): on a text file, iterate over its lines; on a CSV
file, skip the first record when a header was detected (`next(reader)`) and
iterate over the remaining records. -/
def read_emails_from_file : FileData → List String
  | FileData.text content => read_emails_lines (pySplitLines content)
  | FileData.csv records hasHeader =>
      read_emails_csv_rows (if hasHeader then records.drop 1 else records)

/-- One stored webhook delivery (`callback_record` built in the `/callback`
POST handler of `webhook_server_enhanced.py`, lines 107-114): request
metadata plus the parsed body. -/
structure CallbackRecord where
  timestamp : String
  method : String
  headers : List (String × String)
  url : String
  remote_addr : String
  data : Json

/-- State of the webhook server: the in-memory list `callbacks_received` and
the on-disk file `verifymyage_callbacks.json` (`none` when the file does not
exist, `some cs` when it holds the JSON array of records `cs`). -/
structure ServerState where
  callbacks_received : List CallbackRecord
  disk : Option (List CallbackRecord)

/-- State at process start: empty in-memory list, no callbacks file. -/
def initialServerState : ServerState :=
  { callbacks_received := [], disk := none }

/-- Embedding of `load_callbacks` (lines 18-26): return the array stored in the file when the file
exists, else `[]`. -/
def load_callbacks (s : ServerState) : List CallbackRecord :=
  match s.disk with
  | some cs => cs
  | none => []

/-- Embedding of `save_callback` (lines 28-33): load the file, append the record, rewrite
the whole file. -/
def save_callback (s : ServerState) (c : CallbackRecord) : ServerState :=
  { s with disk := some (load_callbacks s ++ [c]) }

/-- An inbound POST to `/callback` as Flask hands it to the handler:
declared content type, raw body, the result of parsing the raw body as JSON
(`none` when parsing raises), and the request metadata used to build the
stored record. -/
structure PostInput where
  content_type : String
  raw_data : String
  jsonParse : Option Json
  timestamp : String
  headers : List (String × String)
  url : String
  remote_addr : String

/-- Test `"application/json" in content_type` (substring membership). -/
def ctIsJson (ct : String) : Bool :=
  charsContainSub ct.data "application/json".data

/-- Body-parsing step of the POST handler (lines 94-104): with a JSON
content type, `request.get_json()` (which raises on a malformed body, so the
handler falls into its `except` clause — modelled as `none`); otherwise an
empty body gives `{}`, a parseable body its parse, and an unparseable body
the dict `{"raw_data": raw}`. -/
def post_body_data (inp : PostInput) : Option Json :=
  if ctIsJson inp.content_type then inp.jsonParse
  else if inp.raw_data = "" then some (Json.obj [])
  else
    match inp.jsonParse with
    | some d => some d
    | none => some (Json.obj [("raw_data", Json.str inp.raw_data)])

/-- The record stored for one POST (lines 107-114). -/
def mkCallbackRecord (inp : PostInput) (data : Json) : CallbackRecord :=
  { timestamp := inp.timestamp
    method := "POST"
    headers := inp.headers
    url := inp.url
    remote_addr := inp.remote_addr
    data := data }

/-- Response of the `/callback` route, reduced to the fields the claims
inspect: HTTP status, the `callback_id` of a POST acknowledgment, and the
`callbacks_count` of a GET probe. -/
structure CallbackResponse where
  status : Nat
  callback_id : Option Nat
  callbacks_count : Option Nat

/-- POST branch of the `/callback` handler (lines 91-167): parse the body
(a raised parse error yields the HTTP 500 error response and stores
nothing), append the record to `callbacks_received`, mirror it to disk via
`save_callback`, and acknowledge with `callback_id =
len(callbacks_received)` measured after the append. -/
def callback_post (s : ServerState) (inp : PostInput) : ServerState × CallbackResponse :=
  match post_body_data inp with
  | none => (s, { status := 500, callback_id := none, callbacks_count := none })
  | some data =>
      let record := mkCallbackRecord inp data
      let s1 := { s with callbacks_received := s.callbacks_received ++ [record] }
      let s2 := save_callback s1 record
      (s2, { status := 200
             callback_id := some s1.callbacks_received.length
             callbacks_count := none })

/-- A request hitting the `/callback` route. -/
inductive CallbackRequest where
  | get : CallbackRequest
  | head : CallbackRequest
  | options : CallbackRequest
  | post (inp : PostInput) : CallbackRequest

/-- The `/callback` route (lines 60-167): OPTIONS answers the CORS
preflight, HEAD answers the connection check, GET answers the validation
probe with the current `callbacks_count`; none of the three touches the
state.  POST is handled by `callback_post`. -/
def callback_route (s : ServerState) : CallbackRequest → ServerState × CallbackResponse
  | CallbackRequest.options =>
      (s, { status := 200, callback_id := none, callbacks_count := none })
  | CallbackRequest.head =>
      (s, { status := 200, callback_id := none, callbacks_count := none })
  | CallbackRequest.get =>
      (s, { status := 200, callback_id := none
            callbacks_count := some s.callbacks_received.length })
  | CallbackRequest.post inp => callback_post s inp

/-- Response body of `GET /webhooks`. -/
structure WebhooksView where
  total : Nat
  callbacks : List CallbackRecord
  message : String

/-- Embedding of `get_webhooks` (lines 169-179): reload the whole history from the file,
report its length as `total` and its last 10 records (`all_callbacks[-10:]`)
in order. -/
def get_webhooks (s : ServerState) : WebhooksView :=
  let all_callbacks := load_callbacks s
  { total := all_callbacks.length
    callbacks := all_callbacks.drop (all_callbacks.length - 10)
    message := "Showing last " ++ toString (min 10 all_callbacks.length) ++
      " of " ++ toString all_callbacks.length ++ " callbacks" }

/-- Embedding of `clear_webhooks` (lines 181-194): unconditionally reset the in-memory
list to `[]`, remove the file when it exists (so the file is absent either
way), and answer 200 `"cleared"` with no confirmation step. -/
def clear_webhooks (_ : ServerState) : ServerState × Nat :=
  ({ callbacks_received := [], disk := none }, 200)

/-- One request served by the webhook server, restricted to the routes the
claims exercise. -/
inductive ServerOp where
  | callbackReq (r : CallbackRequest) : ServerOp
  | query : ServerOp
  | clear : ServerOp

/-- Serve one request: the new state, paired with the `callback_id` of the
acknowledgment when the request was an acknowledged POST. -/
def server_step (s : ServerState) : ServerOp → ServerState × Option Nat
  | ServerOp.callbackReq r =>
      let out := callback_route s r
      (out.1, out.2.callback_id)
  | ServerOp.query => (s, none)
  | ServerOp.clear => ((clear_webhooks s).1, none)

/-- Serve a sequence of requests, collecting the `callback_id` values of the
POST acknowledgments in response order. -/
def server_run (s : ServerState) : List ServerOp → ServerState × List Nat
  | [] => (s, [])
  | op :: rest =>
      let first := server_step s op
      let later := server_run first.1 rest
      (later.1, first.2.toList ++ later.2)

/-- The requests of a sequence of POSTs to `/callback`. -/
def postOps (inps : List PostInput) : List ServerOp :=
  inps.map (fun inp => ServerOp.callbackReq (CallbackRequest.post inp))

/-- The record stored for a POST whose body was delivered with a JSON content
type and parsed successfully. -/
def jsonPostRecord (inp : PostInput) : CallbackRecord :=
  mkCallbackRecord inp (inp.jsonParse.getD Json.null)

/-- A well-formed JSON POST to `/callback`, used as concrete input. -/
def jsonPostSample : PostInput :=
  { content_type := "application/json"
    raw_data := "\x7b\x7d"
    jsonParse := some (Json.obj [])
    timestamp := "2025-01-01T00:00:00"
    headers := []
    url := "http://localhost:5002/callback"
    remote_addr := "127.0.0.1" }

/-- Mocked response: 204 No Content with an empty body. -/
def r204 : HttpResponse :=
  { status_code := 204, headers := [], text := "", jsonBody := none }

/-- Mocked response: 403 with body `\x7b"errors": "no permission"\x7d`. -/
def r403 : HttpResponse :=
  { status_code := 403
    headers := []
    text := "\x7b\"errors\": \"no permission\"\x7d"
    jsonBody := some (Json.obj [("errors", Json.str "no permission")]) }

/-- Mocked failure response carrying identifiers in a header and in the
body. -/
def rIds : HttpResponse :=
  { status_code := 403
    headers := [("X-Request-Id", "rid")]
    text := "\x7b\"job_id\": \"j1\"\x7d"
    jsonBody := some (Json.obj [("job_id", Json.str "j1")]) }

/-- The plain-text loop keeps exactly the stripped lines accepted by
`emailOk`, in input order. -/
lemma read_emails_lines_eq (ls : List String) :
    read_emails_lines ls = (ls.map pyStrip).filter emailOk := by
  induction ls with
  | nil => rfl
  | cons l t ih =>
      by_cases h : emailOk (pyStrip l) <;>
        simp [read_emails_lines, List.filter_cons, h, ih]

/-- The CSV loop keeps exactly the stripped first columns of the non-empty
records accepted by `emailOk`, in input order. -/
lemma read_emails_csv_rows_eq (rs : List (List String)) :
    read_emails_csv_rows rs =
      ((rs.filter (fun row => !row.isEmpty)).map
        (fun row => pyStrip (row.headD ""))).filter emailOk := by
  induction rs with
  | nil => rfl
  | cons row t ih =>
      by_cases hrow : row.isEmpty
      · simp [read_emails_csv_rows, hrow, List.filter_cons, ih]
      · by_cases h : emailOk (pyStrip (row.headD "")) <;>
          simp [read_emails_csv_rows, hrow, List.filter_cons, h, ih]

/-- C2: `read_emails_from_file` returns exactly the candidate records (every
line of a plain-text file; the first column of every non-empty record of a
CSV file, after the header-detection skip) that, after stripping surrounding
whitespace, are non-empty and contain `@`, stripped, in input order; the
plain-text file `a@x.com\nnot-an-email\nb@y.com` yields exactly
`["a@x.com", "b@y.com"]`. -/
theorem read_emails_from_file_spec :
    (∀ content : String,
      read_emails_from_file (FileData.text content) =
        ((pySplitLines content).map pyStrip).filter emailOk) ∧
    (∀ (records : List (List String)) (hasHeader : Bool),
      read_emails_from_file (FileData.csv records hasHeader) =
        ((((if hasHeader then records.drop 1 else records).filter
            (fun row => !row.isEmpty)).map
          (fun row => pyStrip (row.headD ""))).filter emailOk)) ∧
    read_emails_from_file (FileData.text "a@x.com\nnot-an-email\nb@y.com") =
      ["a@x.com", "b@y.com"] := by
  refine ⟨fun content => ?_, fun records hasHeader => ?_, by decide⟩
  · simp [read_emails_from_file, read_emails_lines_eq]
  · simp [read_emails_from_file, read_emails_csv_rows_eq]

/-- C6: when the transport raises (no response at all), `erase_emails`
returns a failure result embedding the exception description, with no
status code; the exception is not propagated (the function is total and
this is its value on the exception case). -/
theorem erase_emails_transport_failure (emails : List String) (e : String) :
    (erase_emails emails (Except.error e)).success = false ∧
    (erase_emails emails (Except.error e)).error =
      some (Json.str ("Request failed: " ++ e)) ∧
    (erase_emails emails (Except.error e)).status_code = none ∧
    (erase_emails emails (Except.error e)).emails_attempted = some emails :=
  ⟨rfl, rfl, rfl, rfl⟩

/-- C8: `clear_webhooks` unconditionally empties the in-memory list and
removes the on-disk file, so a subsequent query reports `total = 0`, and it
answers 200 with no confirmation step whatever the previous state was. -/
theorem clear_webhooks_resets (s : ServerState) :
    (clear_webhooks s).1.callbacks_received = [] ∧
    (clear_webhooks s).1.disk = none ∧
    (get_webhooks (clear_webhooks s).1).total = 0 ∧
    (clear_webhooks s).2 = 200 :=
  ⟨rfl, rfl, rfl, rfl⟩

/-- C9: GET, HEAD and OPTIONS on `/callback` leave the whole server state
(in-memory list and on-disk file) unchanged. -/
theorem callback_probes_preserve_state (s : ServerState) (r : CallbackRequest)
    (h : r = CallbackRequest.get ∨ r = CallbackRequest.head ∨
      r = CallbackRequest.options) :
    (callback_route s r).1 = s := by
  rcases h with h | h | h <;> subst h <;> rfl

/-- Witness for `callback_probes_preserve_state` at a GET on the initial
state. -/
theorem callback_probes_preserve_state_witness :
    (callback_route initialServerState CallbackRequest.get).1 =
      initialServerState :=
  callback_probes_preserve_state initialServerState CallbackRequest.get
    (Or.inl rfl)

/-- C1: given a delivered response, `erase_emails` succeeds iff the status
code is one of 200, 201, 202, 204; on success, `emails_processed` is
exactly the input list and the message reports its count. -/
theorem erase_emails_success_spec (emails : List String) (r : HttpResponse) :
    ((erase_emails emails (Except.ok r)).success = true ↔
      r.status_code ∈ [200, 201, 202, 204]) ∧
    (r.status_code ∈ [200, 201, 202, 204] →
      (erase_emails emails (Except.ok r)).emails_processed = some emails ∧
      (erase_emails emails (Except.ok r)).message =
        some ("Successfully initiated erasure for " ++
          toString emails.length ++ " emails")) := by
  by_cases h : r.status_code ∈ [200, 201, 202, 204] <;>
    simp [erase_emails, h]

/-- Witness for `erase_emails_success_spec`: a mocked 204 response on a
one-element list. -/
theorem erase_emails_success_spec_witness :
    (erase_emails ["a@x.com"] (Except.ok r204)).success = true ∧
    (erase_emails ["a@x.com"] (Except.ok r204)).emails_processed =
      some ["a@x.com"] := by
  have h := erase_emails_success_spec ["a@x.com"] r204
  exact ⟨h.1.mpr (by decide), (h.2 (by decide)).1⟩

/-- C4: on a non-success status code, `erase_emails` fails and its error
message follows the precedence of the code: the `errors` value of the body when
present, else its `message` value, else (body present but unparseable) the
raw body text; in particular a 403 response with body
`\x7b"errors": "no permission"\x7d` yields `success = false` and error
`"no permission"`. -/
theorem erase_emails_failure_error_spec (emails : List String) (r : HttpResponse)
    (hns : r.status_code ∉ [200, 201, 202, 204]) :
    (erase_emails emails (Except.ok r)).success = false ∧
    (∀ fields v, r.text ≠ "" → r.jsonBody = some (Json.obj fields) →
      jlookup fields "errors" = some v →
      (erase_emails emails (Except.ok r)).error = some v) ∧
    (∀ fields v, r.text ≠ "" → r.jsonBody = some (Json.obj fields) →
      jlookup fields "errors" = none → jlookup fields "message" = some v →
      (erase_emails emails (Except.ok r)).error = some v) ∧
    (r.text ≠ "" → r.jsonBody = none →
      (erase_emails emails (Except.ok r)).error = some (Json.str r.text)) ∧
    (erase_emails emails (Except.ok r403)).success = false ∧
    (erase_emails emails (Except.ok r403)).error =
      some (Json.str "no permission") := by
  have herr : (erase_emails emails (Except.ok r)).error =
      some (failure_error_message r) := by
    simp [erase_emails, hns]
  refine ⟨by simp [erase_emails, hns], ?_, ?_, ?_, rfl, rfl⟩
  · intro fields v htext hjson hlook
    rw [herr]
    simp [failure_error_message, htext, hjson, hlook]
  · intro fields v htext hjson hlook1 hlook2
    rw [herr]
    simp [failure_error_message, htext, hjson, hlook1, hlook2]
  · intro htext hjson
    rw [herr]
    simp [failure_error_message, htext, hjson]

/-- Witness for `erase_emails_failure_error_spec`: the mocked 403 response
with body `\x7b"errors": "no permission"\x7d`. -/
theorem erase_emails_failure_error_spec_witness :
    (erase_emails ["a@x.com"] (Except.ok r403)).success = false ∧
    (erase_emails ["a@x.com"] (Except.ok r403)).error =
      some (Json.str "no permission") := by
  have h := erase_emails_failure_error_spec ["a@x.com"] r403 (by decide)
  exact ⟨h.1, h.2.1 [("errors", Json.str "no permission")]
    (Json.str "no permission") (by decide) rfl rfl⟩

/-- C10: on a non-success status code, the failure result still carries the
identifiers extracted from the response (headers `X-Request-Id`,
`X-Message-Id`, `X-Trace-Id` and body keys `job_id`, `id`, `request_id`) in
`request_ids`, together with the full response headers. -/
theorem erase_emails_failure_ids_spec (emails : List String) (r : HttpResponse)
    (hns : r.status_code ∉ [200, 201, 202, 204]) :
    (erase_emails emails (Except.ok r)).request_ids =
      some (extract_request_ids r) ∧
    (erase_emails emails (Except.ok r)).response_headers = some r.headers ∧
    (∀ v, headerLookup r.headers "X-Request-Id" = some v →
      ("x_request_id", Json.str v) ∈ extract_request_ids r) ∧
    (∀ v, headerLookup r.headers "X-Message-Id" = some v →
      ("x_message_id", Json.str v) ∈ extract_request_ids r) ∧
    (∀ v, headerLookup r.headers "X-Trace-Id" = some v →
      ("x_trace_id", Json.str v) ∈ extract_request_ids r) ∧
    (∀ fields v, r.text ≠ "" → r.jsonBody = some (Json.obj fields) →
      jlookup fields "job_id" = some v →
      ("job_id", v) ∈ extract_request_ids r) ∧
    (∀ fields v, r.text ≠ "" → r.jsonBody = some (Json.obj fields) →
      jlookup fields "id" = some v →
      ("erasure_job_id", v) ∈ extract_request_ids r) ∧
    (∀ fields v, r.text ≠ "" → r.jsonBody = some (Json.obj fields) →
      jlookup fields "request_id" = some v →
      ("request_id", v) ∈ extract_request_ids r) := by
  refine ⟨by simp [erase_emails, hns], by simp [erase_emails, hns],
    ?_, ?_, ?_, ?_, ?_, ?_⟩
  · intro v hv
    simp [extract_request_ids, header_request_ids, optEntry, hv]
  · intro v hv
    simp [extract_request_ids, header_request_ids, optEntry, hv]
  · intro v hv
    simp [extract_request_ids, header_request_ids, optEntry, hv]
  · intro fields v htext hjson hlook
    simp [extract_request_ids, body_request_ids, htext, hjson, optEntry, hlook]
  · intro fields v htext hjson hlook
    simp [extract_request_ids, body_request_ids, htext, hjson, optEntry, hlook]
  · intro fields v htext hjson hlook
    simp [extract_request_ids, body_request_ids, htext, hjson, optEntry, hlook]

/-- Witness for `erase_emails_failure_ids_spec`: a 403 response with an
`X-Request-Id` header and a `job_id` body key. -/
theorem erase_emails_failure_ids_spec_witness :
    (erase_emails [] (Except.ok rIds)).request_ids =
      some (extract_request_ids rIds) ∧
    ("x_request_id", Json.str "rid") ∈ extract_request_ids rIds ∧
    ("job_id", Json.str "j1") ∈ extract_request_ids rIds := by
  have h := erase_emails_failure_ids_spec [] rIds (by decide)
  exact ⟨h.1, h.2.2.1 "rid" rfl,
    h.2.2.2.2.2.1 [("job_id", Json.str "j1")] (Json.str "j1")
      (by decide) rfl rfl⟩

/-- A POST whose body arrives with a JSON content type and parses
successfully stores `jsonPostRecord inp` and leaves the file mirroring the
in-memory history: running a sequence of such POSTs appends their records,
in arrival order, to the file contents. -/
lemma load_callbacks_run_posts (inps : List PostInput) :
    ∀ s : ServerState,
    (∀ inp ∈ inps, ctIsJson inp.content_type = true ∧ inp.jsonParse.isSome) →
    load_callbacks (server_run s (postOps inps)).1 =
      load_callbacks s ++ inps.map jsonPostRecord := by
  induction inps with
  | nil => intro s _; simp [postOps, server_run]
  | cons inp rest ih =>
      intro s h
      obtain ⟨hct, hsome⟩ := h inp (List.mem_cons_self _ _)
      obtain ⟨v, hv⟩ := Option.isSome_iff_exists.mp hsome
      have hb : post_body_data inp = some v := by
        simp [post_body_data, hct, hv]
      have hrec : jsonPostRecord inp = mkCallbackRecord inp v := by
        simp [jsonPostRecord, hv]
      have hcons : postOps (inp :: rest) =
          ServerOp.callbackReq (CallbackRequest.post inp) :: postOps rest := rfl
      rw [hcons]
      simp only [server_run, server_step, callback_route, callback_post, hb,
        save_callback]
      rw [ih _ (fun i hi => h i (List.mem_cons_of_mem _ hi))]
      simp [load_callbacks, hrec, List.append_assoc]

/-- C3: starting from the initial state, POSTing a sequence of JSON bodies
and then querying `GET /webhooks` reports `total` equal to the number of
POSTs and exactly the last `min 10 N` stored records, in arrival order
(`drop (N - 10)` of the full arrival-ordered history). -/
theorem callback_store_accumulates (inps : List PostInput)
    (h : ∀ inp ∈ inps, ctIsJson inp.content_type = true ∧ inp.jsonParse.isSome) :
    (get_webhooks (server_run initialServerState (postOps inps)).1).total =
      inps.length ∧
    (get_webhooks (server_run initialServerState (postOps inps)).1).callbacks =
      (inps.map jsonPostRecord).drop (inps.length - 10) := by
  have hl := load_callbacks_run_posts inps initialServerState h
  have h0 : load_callbacks initialServerState = [] := rfl
  rw [h0, List.nil_append] at hl
  constructor
  · simp [get_webhooks, hl]
  · simp [get_webhooks, hl]

/-- Witness for `callback_store_accumulates`: two JSON POSTs yield
`total = 2` and both records, in order. -/
theorem callback_store_accumulates_witness :
    (get_webhooks (server_run initialServerState
        (postOps [jsonPostSample, jsonPostSample])).1).total = 2 ∧
    (get_webhooks (server_run initialServerState
        (postOps [jsonPostSample, jsonPostSample])).1).callbacks =
      [jsonPostRecord jsonPostSample, jsonPostRecord jsonPostSample] := by
  have h := callback_store_accumulates [jsonPostSample, jsonPostSample]
    (by decide)
  exact ⟨h.1, h.2⟩

/-- A run of POSTs: every acknowledged `callback_id` exceeds the in-memory
count at the start of the run, and the acknowledged ids are strictly
increasing in response order. -/
lemma server_run_posts_ids (inps : List PostInput) :
    ∀ s : ServerState,
    (∀ i ∈ (server_run s (postOps inps)).2,
      s.callbacks_received.length < i) ∧
    List.Pairwise (fun a b => a < b) (server_run s (postOps inps)).2 := by
  induction inps with
  | nil => intro s; simp [postOps, server_run]
  | cons inp rest ih =>
      intro s
      have hcons : postOps (inp :: rest) =
          ServerOp.callbackReq (CallbackRequest.post inp) :: postOps rest := rfl
      rw [hcons]
      cases hb : post_body_data inp with
      | none =>
          simpa [server_run, server_step, callback_route,
            callback_post, hb] using ih s
      | some v =>
          have hlen : (s.callbacks_received ++ [mkCallbackRecord inp v]).length
              = s.callbacks_received.length + 1 := by simp
          have h2 := ih { s with
            callbacks_received :=
              s.callbacks_received ++ [mkCallbackRecord inp v]
            disk := some (load_callbacks s ++ [mkCallbackRecord inp v]) }
          simp only [server_run, server_step, callback_route, callback_post,
            hb, save_callback, load_callbacks, Option.toList_some,
            List.cons_append, List.nil_append] at h2 ⊢
          constructor
          · intro i hi
            rcases List.mem_cons.mp hi with hi | hi
            · rw [hi, hlen]; omega
            · have hb2 := h2.1 i hi
              rw [hlen] at hb2
              omega
          · refine List.pairwise_cons.mpr ⟨?_, h2.2⟩
            intro i hi
            have hb2 := h2.1 i hi
            rw [hlen] at hb2
            rw [hlen]
            omega

/-- A run serving two POSTs, then `POST /webhooks/clear`, then one more
POST. -/
def clearTrace : List ServerOp :=
  [ServerOp.callbackReq (CallbackRequest.post jsonPostSample),
   ServerOp.callbackReq (CallbackRequest.post jsonPostSample),
   ServerOp.clear,
   ServerOp.callbackReq (CallbackRequest.post jsonPostSample)]

/-- Counterexample to C5 as stated: in one process run containing two POSTs,
a `POST /webhooks/clear` and a third POST, the acknowledged `callback_id`
values are `[1, 2, 1]` — the last acknowledgment is not strictly greater
than the earlier ones, because `clear_webhooks` resets the in-memory list
whose length is reported as `callback_id`. -/
theorem callback_id_not_monotonic_cex :
    (server_run initialServerState clearTrace).2 = [1, 2, 1] ∧
    ¬ List.Pairwise (fun a b : Nat => a < b)
      (server_run initialServerState clearTrace).2 := by
  have h : (server_run initialServerState clearTrace).2 = [1, 2, 1] := rfl
  refine ⟨h, ?_⟩
  rw [h]
  intro hp
  rcases List.pairwise_cons.mp hp with ⟨h1, _⟩
  exact absurd (h1 1 (by simp)) (by omega)

/-- C5 (amended): along any run consisting only of POSTs to `/callback` —
no intervening clear — the acknowledged `callback_id` values are strictly
increasing, from any starting state. -/
theorem callback_ids_strictly_increasing (s : ServerState)
    (inps : List PostInput) :
    List.Pairwise (fun a b => a < b) (server_run s (postOps inps)).2 :=
  (server_run_posts_ids inps s).2
